import Mathlib

/-!
Verification of the deduction/entitlement engine of the UK salary calculator
(`src/app/page.tsx`).  The engine is a pure numeric pipeline: two progressive
bracket walks (income tax with a tapered personal allowance, and National
Insurance), a childcare free-hours resolver gated on taxable income, and an
orchestrating `calculations` function producing an itemized result record.
All arithmetic is modelled exactly over `ℚ`.
-/

namespace HenryNursery

/-- A tax band: `min`/`max` bounds and a marginal `rate`.  `max = none`
models `Number.POSITIVE_INFINITY` on the final band. -/
structure Bracket where
  min : ℚ
  max : Option ℚ
  rate : ℚ

/-- `TAX_BRACKETS` from `page.tsx` (UK 2024/25 income tax). -/
def TAX_BRACKETS : List Bracket :=
  [⟨0, some 12570, 0⟩,
   ⟨12570, some 50270, 0.2⟩,
   ⟨50270, some 125140, 0.4⟩,
   ⟨125140, none, 0.45⟩]

/-- `NI_BRACKETS` from `page.tsx` (UK 2024/25 employee NI). -/
def NI_BRACKETS : List Bracket :=
  [⟨0, some 12570, 0⟩,
   ⟨12570, some 50270, 0.12⟩,
   ⟨50270, none, 0.02⟩]

def CHILDCARE_FREE_HOURS_THRESHOLD : ℚ := 100000

def FREE_CHILDCARE_HOURS_PER_WEEK_UNDER_100K : ℚ := 30

def FREE_CHILDCARE_HOURS_PER_WEEK_3_4_YEARS : ℚ := 15

def SCHOOL_WEEKS_PER_YEAR : ℚ := 38

/-- `Math.min(remainingIncome, bracket.max - bracket.min)`: the slice of the
remaining income that falls in this bracket (an infinite `max` puts no cap). -/
def taxableInBracket (b : Bracket) (remainingIncome : ℚ) : ℚ :=
  match b.max with
  | none => remainingIncome
  | some m => min remainingIncome (m - b.min)

/-- The `for`-loop of `calculateTax`: walk the brackets accumulating
`amountInBand * rate`, with the personal allowance subtracted (rate-free)
inside the `min = 0` bracket only; break once `remainingIncome ≤ 0`. -/
def taxLoop (personalAllowance : ℚ) : List Bracket → ℚ → ℚ
  | [], _ => 0
  | b :: bs, remainingIncome =>
    if remainingIncome ≤ 0 then 0
    else
      (if b.min = 0 then
        max 0 (taxableInBracket b remainingIncome -
          min (taxableInBracket b remainingIncome) personalAllowance) * b.rate
      else taxableInBracket b remainingIncome * b.rate) +
        taxLoop personalAllowance bs (remainingIncome - taxableInBracket b remainingIncome)

/-- Lines 34–39 of `calculateTax`: the tapered personal allowance,
`12570` reduced by `min 12570 ((income - 100000) / 2)` above `100000`. -/
def effectivePersonalAllowance (taxableIncome : ℚ) : ℚ :=
  if taxableIncome > 100000 then
    12570 - min 12570 ((taxableIncome - 100000) / 2)
  else 12570

/-- `calculateTax` from `page.tsx`. -/
def calculateTax (taxableIncome : ℚ) : ℚ :=
  taxLoop (effectivePersonalAllowance taxableIncome) TAX_BRACKETS taxableIncome

/-- The `for`-loop of `calculateNI`: plain bracket walk, no allowance. -/
def niLoop : List Bracket → ℚ → ℚ
  | [], _ => 0
  | b :: bs, remainingIncome =>
    if remainingIncome ≤ 0 then 0
    else taxableInBracket b remainingIncome * b.rate +
      niLoop bs (remainingIncome - taxableInBracket b remainingIncome)

/-- `calculateNI` from `page.tsx`. -/
def calculateNI (income : ℚ) : ℚ := niLoop NI_BRACKETS income

/-- The raw user inputs consumed by the `calculations` memo. -/
structure Inputs where
  salary : ℚ
  bonus : ℚ
  pensionContributionPercent : ℚ
  employerPensionPercent : ℚ
  electricCarSacrifice : ℚ
  bikeToWorkSacrifice : ℚ
  nurseryCostPerHour : ℚ
  nurseryHoursPerWeek : ℚ
  children9MonthsTo3Years : ℚ
  children3To4Years : ℚ

/-- The itemized result record returned by the `calculations` memo. -/
structure Calculations where
  grossIncome : ℚ
  taxableIncome : ℚ
  employeePensionContribution : ℚ
  employerPensionContribution : ℚ
  totalPensionContribution : ℚ
  tax : ℚ
  nationalInsurance : ℚ
  totalSalarySacrifice : ℚ
  electricCarSacrifice : ℚ
  bikeToWorkSacrifice : ℚ
  nurseryAnnualCost : ℚ
  freeHours9MonthsTo3Years : ℚ
  freeHours3To4Years : ℚ
  paidHours9MonthsTo3Years : ℚ
  paidHours3To4Years : ℚ
  cost9MonthsTo3Years : ℚ
  cost3To4Years : ℚ
  isUnder100k : Bool
  takeHome : ℚ

/-- The `calculations` pipeline from `page.tsx` (cohort-aware variant,
lines 88–140): gross income, sacrifice, pension split, taxable income,
tax, NI, per-cohort childcare, and take-home pay. -/
def calculations (i : Inputs) : Calculations :=
  let grossIncome := i.salary + i.bonus
  let totalSalarySacrifice := i.electricCarSacrifice + i.bikeToWorkSacrifice
  let employeePensionContribution := grossIncome * i.pensionContributionPercent / 100
  let employerPensionContribution := grossIncome * i.employerPensionPercent / 100
  let totalPensionContribution := employeePensionContribution + employerPensionContribution
  let taxableIncome := grossIncome - employeePensionContribution - totalSalarySacrifice
  let tax := calculateTax taxableIncome
  let nationalInsurance :=
    calculateNI (grossIncome - employeePensionContribution - totalSalarySacrifice)
  let isUnder100k : Bool := taxableIncome < CHILDCARE_FREE_HOURS_THRESHOLD
  let freeHours9MonthsTo3Years :=
    if isUnder100k then FREE_CHILDCARE_HOURS_PER_WEEK_UNDER_100K else 0
  let paidHours9MonthsTo3Years := max 0 (i.nurseryHoursPerWeek - freeHours9MonthsTo3Years)
  let cost9MonthsTo3Years :=
    paidHours9MonthsTo3Years * i.nurseryCostPerHour * SCHOOL_WEEKS_PER_YEAR *
      i.children9MonthsTo3Years
  let freeHours3To4Years :=
    if isUnder100k then FREE_CHILDCARE_HOURS_PER_WEEK_UNDER_100K
    else FREE_CHILDCARE_HOURS_PER_WEEK_3_4_YEARS
  let paidHours3To4Years := max 0 (i.nurseryHoursPerWeek - freeHours3To4Years)
  let cost3To4Years :=
    paidHours3To4Years * i.nurseryCostPerHour * SCHOOL_WEEKS_PER_YEAR * i.children3To4Years
  let nurseryAnnualCost := cost9MonthsTo3Years + cost3To4Years
  let takeHome := grossIncome - employeePensionContribution - tax - nationalInsurance -
    totalSalarySacrifice - nurseryAnnualCost
  { grossIncome := grossIncome
    taxableIncome := taxableIncome
    employeePensionContribution := employeePensionContribution
    employerPensionContribution := employerPensionContribution
    totalPensionContribution := totalPensionContribution
    tax := tax
    nationalInsurance := nationalInsurance
    totalSalarySacrifice := totalSalarySacrifice
    electricCarSacrifice := i.electricCarSacrifice
    bikeToWorkSacrifice := i.bikeToWorkSacrifice
    nurseryAnnualCost := nurseryAnnualCost
    freeHours9MonthsTo3Years := freeHours9MonthsTo3Years
    freeHours3To4Years := freeHours3To4Years
    paidHours9MonthsTo3Years := paidHours9MonthsTo3Years
    paidHours3To4Years := paidHours3To4Years
    cost9MonthsTo3Years := cost9MonthsTo3Years
    cost3To4Years := cost3To4Years
    isUnder100k := isUnder100k
    takeHome := takeHome }

/-- Reference definition for the refinement comparison: the identical bracket
walk with the personal allowance held constant at `12570`, i.e. the taper of
lines 34–39 skipped entirely. -/
def calculateTaxNoTaper (taxableIncome : ℚ) : ℚ :=
  taxLoop 12570 TAX_BRACKETS taxableIncome

/-! ### Helper lemmas -/

/-- The tax-bracket walk never reads the personal allowance: the only bracket
with `min = 0` has rate `0`, so the allowance-adjusted term is multiplied by
zero. -/
lemma taxLoop_allowance_irrel (pA pB x : ℚ) :
    taxLoop pA TAX_BRACKETS x = taxLoop pB TAX_BRACKETS x := by
  simp [taxLoop, TAX_BRACKETS, taxableInBracket]

set_option maxHeartbeats 1000000 in
/-- Closed form of the tax-bracket walk as a sum of clamped linear pieces. -/
lemma taxLoop_closed (pA x : ℚ) :
    taxLoop pA TAX_BRACKETS x =
      0.2 * (min (max x 12570) 50270 - 12570) +
      0.4 * (min (max x 50270) 125140 - 50270) +
      0.45 * (max x 125140 - 125140) := by
  simp only [taxLoop, TAX_BRACKETS, taxableInBracket]
  norm_num
  simp only [min_def, max_def]
  split_ifs <;> linarith

/-- Closed form of `calculateTax`. -/
lemma calculateTax_closed (x : ℚ) :
    calculateTax x =
      0.2 * (min (max x 12570) 50270 - 12570) +
      0.4 * (min (max x 50270) 125140 - 50270) +
      0.45 * (max x 125140 - 125140) :=
  taxLoop_closed _ x

set_option maxHeartbeats 1000000 in
/-- Closed form of `calculateNI`. -/
lemma calculateNI_closed (x : ℚ) :
    calculateNI x =
      0.12 * (min (max x 12570) 50270 - 12570) +
      0.02 * (max x 50270 - 50270) := by
  simp only [calculateNI, niLoop, NI_BRACKETS, taxableInBracket]
  norm_num
  simp only [min_def, max_def]
  split_ifs <;> linarith

/-- The young-cohort free-hours field, expressed through taxable income. -/
lemma calculations_freeHours9 (i : Inputs) :
    (calculations i).freeHours9MonthsTo3Years =
      if (calculations i).taxableIncome < 100000 then 30 else 0 := by
  simp [calculations, CHILDCARE_FREE_HOURS_THRESHOLD,
    FREE_CHILDCARE_HOURS_PER_WEEK_UNDER_100K]

/-- The mid-cohort free-hours field, expressed through taxable income. -/
lemma calculations_freeHours3To4 (i : Inputs) :
    (calculations i).freeHours3To4Years =
      if (calculations i).taxableIncome < 100000 then 30 else 15 := by
  simp [calculations, CHILDCARE_FREE_HOURS_THRESHOLD,
    FREE_CHILDCARE_HOURS_PER_WEEK_UNDER_100K, FREE_CHILDCARE_HOURS_PER_WEEK_3_4_YEARS]

/-! ### Claim theorems -/

/-- C1: for salary 50,000, bonus 0, employee pension 5%, employer pension 3%,
zero salary sacrifice and zero children, the pipeline returns
taxableIncome = 47,500, tax = 6,986, nationalInsurance = 4,191.6 and
takeHome = 36,322.4. -/
theorem calculations_scenario_50k :
    (calculations ⟨50000, 0, 5, 3, 0, 0, 12, 40, 0, 0⟩).taxableIncome = 47500 ∧
    (calculations ⟨50000, 0, 5, 3, 0, 0, 12, 40, 0, 0⟩).tax = 6986 ∧
    (calculations ⟨50000, 0, 5, 3, 0, 0, 12, 40, 0, 0⟩).nationalInsurance = 4191.6 ∧
    (calculations ⟨50000, 0, 5, 3, 0, 0, 12, 40, 0, 0⟩).takeHome = 36322.4 := by
  norm_num [calculations, calculateTax, calculateNI, taxLoop, niLoop, taxableInBracket,
    effectivePersonalAllowance, TAX_BRACKETS, NI_BRACKETS, CHILDCARE_FREE_HOURS_THRESHOLD,
    FREE_CHILDCARE_HOURS_PER_WEEK_UNDER_100K, FREE_CHILDCARE_HOURS_PER_WEEK_3_4_YEARS,
    SCHOOL_WEEKS_PER_YEAR]

/-- C2: for every input, taxableIncome = (salary + bonus) −
(salary + bonus) · employeePensionPercent / 100 − (electricCarSacrifice +
bikeToWorkSacrifice); tax and National Insurance are both computed on exactly
that taxableIncome; and takeHome = grossIncome − employeePension − tax − NI −
totalSalarySacrifice − totalNurseryCost. -/
theorem calculations_pipeline_equations (i : Inputs) :
    (calculations i).taxableIncome =
      (i.salary + i.bonus) - (i.salary + i.bonus) * i.pensionContributionPercent / 100 -
        (i.electricCarSacrifice + i.bikeToWorkSacrifice) ∧
    (calculations i).tax = calculateTax ((calculations i).taxableIncome) ∧
    (calculations i).nationalInsurance = calculateNI ((calculations i).taxableIncome) ∧
    (calculations i).takeHome =
      (calculations i).grossIncome - (calculations i).employeePensionContribution -
        (calculations i).tax - (calculations i).nationalInsurance -
        (calculations i).totalSalarySacrifice - (calculations i).nurseryAnnualCost :=
  ⟨rfl, rfl, rfl, rfl⟩

/-- C3: the effective personal allowance is 12,570 for taxable income up to and
including 100,000; above 100,000 it is reduced by
min(12,570, (income − 100,000) / 2); it equals 12,570 at 100,000, 0 at
125,140, stays 0 at 150,000, and is never negative. -/
theorem effectivePersonalAllowance_spec (ti : ℚ) :
    (ti ≤ 100000 → effectivePersonalAllowance ti = 12570) ∧
    (100000 < ti →
      effectivePersonalAllowance ti = 12570 - min 12570 ((ti - 100000) / 2)) ∧
    0 ≤ effectivePersonalAllowance ti ∧
    effectivePersonalAllowance 100000 = 12570 ∧
    effectivePersonalAllowance 125140 = 0 ∧
    effectivePersonalAllowance 150000 = 0 := by
  unfold effectivePersonalAllowance
  refine ⟨fun h => by rw [if_neg (by linarith)],
    fun h => by rw [if_pos h], ?_, by norm_num, by norm_num, by norm_num⟩
  split_ifs with h
  · linarith [min_le_left (12570 : ℚ) ((ti - 100000) / 2)]
  · norm_num

/-- Witness for C3 at concrete incomes 50,000 (below the taper threshold) and
120,000 (inside the taper range). -/
theorem effectivePersonalAllowance_spec_witness :
    effectivePersonalAllowance 50000 = 12570 ∧
    effectivePersonalAllowance 120000 = 12570 - min 12570 ((120000 - 100000) / 2) :=
  ⟨(effectivePersonalAllowance_spec 50000).1 (by norm_num),
   (effectivePersonalAllowance_spec 120000).2.1 (by norm_num)⟩

/-- C4: calculateTax coincides with the identical bracket walk whose personal
allowance is held constant at 12,570 (no taper), because the allowance is only
subtracted inside the rate-0 first bracket. -/
theorem calculateTax_eq_noTaper (x : ℚ) : calculateTax x = calculateTaxNoTaper x :=
  taxLoop_allowance_irrel _ _ x

/-- C5: childcare eligibility is the strict comparison taxableIncome < 100,000;
at taxableIncome 99,999 the young cohort gets 30 free hours/week, at 100,000 it
gets 0; the mid cohort gets at least 15 free hours/week for every income
(30 if eligible, 15 otherwise). -/
theorem childcare_free_hours_spec (i : Inputs) :
    (calculations i).isUnder100k = decide ((calculations i).taxableIncome < 100000) ∧
    ((calculations i).taxableIncome = 99999 →
      (calculations i).freeHours9MonthsTo3Years = 30) ∧
    ((calculations i).taxableIncome = 100000 →
      (calculations i).freeHours9MonthsTo3Years = 0) ∧
    15 ≤ (calculations i).freeHours3To4Years ∧
    (calculations i).freeHours3To4Years =
      (if (calculations i).taxableIncome < 100000 then 30 else 15) := by
  have h9 := calculations_freeHours9 i
  have h34 := calculations_freeHours3To4 i
  refine ⟨rfl, fun h2 => ?_, fun h2 => ?_, ?_, h34⟩
  · rw [h9, h2]; norm_num
  · rw [h9, h2]; norm_num
  · rw [h34]; split_ifs <;> norm_num

/-- Witness for C5: at salary 99,999 (all deductions zero) the young cohort
gets 30 free hours, and at salary 100,000 it gets 0. -/
theorem childcare_free_hours_spec_witness :
    (calculations ⟨99999, 0, 0, 0, 0, 0, 12, 40, 1, 1⟩).freeHours9MonthsTo3Years = 30 ∧
    (calculations ⟨100000, 0, 0, 0, 0, 0, 12, 40, 1, 1⟩).freeHours9MonthsTo3Years = 0 :=
  ⟨(childcare_free_hours_spec _).2.1 (by norm_num [calculations]),
   (childcare_free_hours_spec _).2.2.1 (by norm_num [calculations])⟩

/-- C6: calculateNI is the piecewise-linear schedule: 0 up to and including
12,570; (income − 12,570) · 0.12 between 12,570 and 50,270; and above 50,270
the marginal rate is 0.02, i.e. NI = (50,270 − 12,570) · 0.12 +
(income − 50,270) · 0.02. -/
theorem calculateNI_piecewise (x : ℚ) :
    (x ≤ 12570 → calculateNI x = 0) ∧
    (12570 ≤ x → x ≤ 50270 → calculateNI x = (x - 12570) * 0.12) ∧
    (50270 ≤ x →
      calculateNI x = (50270 - 12570) * 0.12 + (x - 50270) * 0.02) := by
  simp only [calculateNI_closed]
  refine ⟨fun h => ?_, fun h h2 => ?_, fun h => ?_⟩ <;>
    simp only [min_def, max_def] <;> split_ifs <;> linarith

/-- Witness for C6 at incomes 10,000, 30,000 and 60,000, one per band. -/
theorem calculateNI_piecewise_witness :
    calculateNI 10000 = 0 ∧
    calculateNI 30000 = (30000 - 12570) * 0.12 ∧
    calculateNI 60000 = (50270 - 12570) * 0.12 + (60000 - 50270) * 0.02 :=
  ⟨(calculateNI_piecewise 10000).1 (by norm_num),
   (calculateNI_piecewise 30000).2.1 (by norm_num) (by norm_num),
   (calculateNI_piecewise 60000).2.2 (by norm_num)⟩

set_option maxHeartbeats 1600000 in
/-- C7: for all non-negative incomes the tax is non-negative, and calculateTax
is monotonically non-decreasing: a ≤ b implies calculateTax a ≤ calculateTax b. -/
theorem calculateTax_nonneg_mono (a b : ℚ) (ha : 0 ≤ a) (hab : a ≤ b) :
    0 ≤ calculateTax a ∧ calculateTax a ≤ calculateTax b := by
  simp only [calculateTax_closed]
  constructor <;> simp only [min_def, max_def] <;> split_ifs <;> linarith

/-- Witness for C7 at the pair (20,000, 60,000). -/
theorem calculateTax_nonneg_mono_witness :
    0 ≤ calculateTax 20000 ∧ calculateTax 20000 ≤ calculateTax 60000 :=
  calculateTax_nonneg_mono 20000 60000 (by norm_num) (by norm_num)

/-- C8: at income exactly 12,570 the tax is 0, and at 12,571 it is strictly
positive: a boundary income belongs entirely to the lower band. -/
theorem calculateTax_boundary_12570 :
    calculateTax 12570 = 0 ∧ 0 < calculateTax 12571 := by
  rw [calculateTax_closed, calculateTax_closed]
  norm_num

/-- C9: each cohort's annual nursery cost is linear in its child count:
doubling the young-cohort count doubles that cohort's cost, and a cohort with
zero children contributes zero cost whatever the other inputs. -/
theorem nursery_cost_linear (i : Inputs) :
    (calculations
        { i with children9MonthsTo3Years := 2 * i.children9MonthsTo3Years
          }).cost9MonthsTo3Years =
      2 * (calculations i).cost9MonthsTo3Years ∧
    (i.children9MonthsTo3Years = 0 → (calculations i).cost9MonthsTo3Years = 0) ∧
    (i.children3To4Years = 0 → (calculations i).cost3To4Years = 0) := by
  refine ⟨?_, fun h => ?_, fun h => ?_⟩
  · simp only [calculations]; ring
  · simp only [calculations]; rw [h]; ring
  · simp only [calculations]; rw [h]; ring

/-- Witness for C9: with zero children in both cohorts, both cohort costs are
zero. -/
theorem nursery_cost_linear_witness :
    (calculations ⟨50000, 0, 5, 3, 0, 0, 12, 40, 0, 0⟩).cost9MonthsTo3Years = 0 ∧
    (calculations ⟨50000, 0, 5, 3, 0, 0, 12, 40, 0, 0⟩).cost3To4Years = 0 :=
  ⟨(nursery_cost_linear _).2.1 rfl, (nursery_cost_linear _).2.2 rfl⟩

/-- C10: calculateTax and calculateNI are total and clamp: for every income
≤ 0 both return exactly 0, the same value as at income 0. -/
theorem calculateTax_calculateNI_nonpos (x : ℚ) (hx : x ≤ 0) :
    calculateTax x = 0 ∧ calculateNI x = 0 ∧
    calculateTax x = calculateTax 0 ∧ calculateNI x = calculateNI 0 := by
  have ht : ∀ y : ℚ, y ≤ 0 → calculateTax y = 0 := by
    intro y hy
    simp [calculateTax, TAX_BRACKETS, taxLoop, hy]
  have hn : ∀ y : ℚ, y ≤ 0 → calculateNI y = 0 := by
    intro y hy
    simp [calculateNI, NI_BRACKETS, niLoop, hy]
  exact ⟨ht x hx, hn x hx, by rw [ht x hx, ht 0 le_rfl], by rw [hn x hx, hn 0 le_rfl]⟩

/-- Witness for C10 at income −100. -/
theorem calculateTax_calculateNI_nonpos_witness :
    calculateTax (-100) = 0 ∧ calculateNI (-100) = 0 ∧
    calculateTax (-100) = calculateTax 0 ∧ calculateNI (-100) = calculateNI 0 :=
  calculateTax_calculateNI_nonpos (-100) (by norm_num)

end HenryNursery
